import Mathlib

/-!
Verification development for the snakecv repository: a head-pose control
pipeline (neutral-point calibration, time-windowed smoothing, control
resolution) shared by two browser games, a Breakout variant
(`src/breakout.ts`, continuous paddle targeting with aim-assist) and a
Snake variant (the unnamed second source file, discrete headings).

Timestamps (JS `Date.now()` milliseconds) are modelled as `Int`;
normalized landmark coordinates and canvas pixel coordinates are
modelled as exact rationals `ℚ`.  DOM and rendering calls are plumbing
and are not modelled; canvas dimensions, which are read from the DOM at
runtime, are passed as parameters.
-/

/-- One entry of the pose history: `interface HeadPose` in both sources. -/
structure HeadPose where
  timestamp : Int
  x : ℚ
  y : ℚ
deriving DecidableEq

/-- The append-then-prune step both variants perform on `poseHistory`:
`poseHistory.push({timestamp: now, x, y})` followed by the head-eviction
loop `while (poseHistory.length > 0 && poseHistory[0].timestamp < cutoff)
poseHistory.shift()` with `cutoff = now - SMOOTHING_DURATION`.  The
while/shift loop removes exactly the longest prefix of entries with
`timestamp < cutoff`, i.e. `List.dropWhile`. -/
def appendAndPrune (history : List HeadPose) (now windowMs : Int) (cx cy : ℚ) :
    List HeadPose :=
  (history ++ [HeadPose.mk now cx cy]).dropWhile
    (fun p => decide (p.timestamp < now - windowMs))

/-- The neutral-point latch both variants run on each processed frame:
`if (gameRunning && !neutralChinPosition) neutralChinPosition = {x, y}`.
(A non-null JS object is always truthy, so `!neutralChinPosition` is
exactly `neutral = none`.) -/
def maybeCalibrate (gameRunning : Bool) (neutral : Option (ℚ × ℚ))
    (cx cy : ℚ) : Option (ℚ × ℚ) :=
  if gameRunning = true ∧ neutral = none then some (cx, cy) else neutral

/-- Mean of the `x` fields of a history window:
`poseHistory.reduce((sum, p) => sum + p.x, 0) / poseHistory.length`. -/
def averageX (history : List HeadPose) : ℚ :=
  (history.map HeadPose.x).sum / (history.length : ℚ)

/-- Mean of the `y` fields of a history window (Snake variant only). -/
def averageY (history : List HeadPose) : ℚ :=
  (history.map HeadPose.y).sum / (history.length : ℚ)

namespace Snake

/-- `SMOOTHING_DURATION = 500` in the Snake source. -/
def SMOOTHING_DURATION : Int := 500

/-- `const horizontalThreshold = 0.03` in the Snake `processLandmarks`. -/
def horizontalThreshold : ℚ := 3 / 100

/-- `const verticalThreshold = 0.01` in the Snake `processLandmarks`. -/
def verticalThreshold : ℚ := 1 / 100

/-- `MAX_SCORE = 5` in the Snake source. -/
def MAX_SCORE : Nat := 5

/-- `type Direction = 'up' | 'down' | 'left' | 'right'`. -/
inductive Direction where
  | up
  | down
  | left
  | right
deriving DecidableEq

/-- The 180-degree reverse of a heading (not a source function; used to
state the no-reversal property). -/
def Direction.reverse : Direction → Direction
  | .up => .down
  | .down => .up
  | .left => .right
  | .right => .left

/-- The direction-selection if/else-if chain of the Snake
`processLandmarks` (lines 137-145): given the committed heading `dir`,
the currently pending heading `nd`, and the smoothed deviations from
neutral, returns the new pending heading. -/
def resolveDirection (dir nd : Direction) (hDiff vDiff : ℚ) : Direction :=
  if hDiff > horizontalThreshold ∧ dir ≠ Direction.right then Direction.left
  else if hDiff < -horizontalThreshold ∧ dir ≠ Direction.left then Direction.right
  else if vDiff < -verticalThreshold ∧ dir ≠ Direction.down then Direction.up
  else if vDiff > verticalThreshold ∧ dir ≠ Direction.up then Direction.down
  else nd

/-- The Snake module's mutable state (the module-level `let`/`const`
bindings the pipeline and game logic read and write). -/
structure SnakeState where
  gameRunning : Bool
  neutralChinPosition : Option (ℚ × ℚ)
  poseHistory : List HeadPose
  snake : List (Int × Int)
  food : Int × Int
  direction : Direction
  newDirection : Direction
  score : Nat
deriving DecidableEq

/-- The Snake `processLandmarks` (lines 104-147), for a frame whose chin
landmark is `(cx, cy)` observed at time `now`: neutral latch, history
append+prune, early return when the window is empty or no neutral is
set, otherwise the direction-selection chain. -/
def processLandmarks (s : SnakeState) (now : Int) (cx cy : ℚ) : SnakeState :=
  let s1 := { s with
    neutralChinPosition := maybeCalibrate s.gameRunning s.neutralChinPosition cx cy }
  let hist := appendAndPrune s1.poseHistory now SMOOTHING_DURATION cx cy
  let s2 := { s1 with poseHistory := hist }
  if hist = [] then s2
  else
    match s2.neutralChinPosition with
    | none => s2
    | some n =>
      let hDiff := averageX hist - n.1
      let vDiff := averageY hist - n.2
      { s2 with newDirection := resolveDirection s2.direction s2.newDirection hDiff vDiff }

/-- `checkSelfCollision` (lines 252-259): the candidate head collides
with any body segment `snake[1..]`. -/
def checkSelfCollision (snake : List (Int × Int)) (head : Int × Int) : Bool :=
  decide (head ∈ snake.tail)

/-- `endGame` (lines 283-296); only `gameRunning = false` matters to the
pipeline state (the rest is canvas/DOM output). -/
def endGame (s : SnakeState) : SnakeState :=
  { s with gameRunning := false }

/-- `resetGame` (lines 150-158).  `placeFood` draws from `Math.random`,
so the fresh food cell is passed in as the oracle `nf`.  Note the source
resets the snake body, headings, score, food and neutral point but never
touches `poseHistory`. -/
def resetGame (nf : Int × Int) (s : SnakeState) : SnakeState :=
  { s with snake := [(15, 15)], direction := Direction.right,
           newDirection := Direction.right, score := 0, food := nf,
           neutralChinPosition := none }

/-- `startGame` (lines 271-281): a no-op while running, otherwise sets
the running flag and resets. -/
def startGame (nf : Int × Int) (s : SnakeState) : SnakeState :=
  if s.gameRunning = true then s else resetGame nf { s with gameRunning := true }

/-- `update` (lines 201-250), one game tick: commit the pending heading,
move the head, wrap at the grid edges, end the game on self-collision,
grow/eat or advance.  `gw`/`gh` are `gameCanvas.width / gridSize` and
`gameCanvas.height / gridSize`; `nf` is the `placeFood` oracle.  The
source indexes `snake[0]`, which is never empty at runtime; the empty
case returns the state with the heading committed, matching the lines
executed before the access. -/
def update (gw gh : Int) (nf : Int × Int) (s : SnakeState) : SnakeState :=
  let s1 := { s with direction := s.newDirection }
  match s1.snake with
  | [] => s1
  | h0 :: _ =>
    let moved : Int × Int :=
      match s1.direction with
      | Direction.right => (h0.1 + 1, h0.2)
      | Direction.left => (h0.1 - 1, h0.2)
      | Direction.up => (h0.1, h0.2 - 1)
      | Direction.down => (h0.1, h0.2 + 1)
    let hx := if moved.1 < 0 then gw - 1 else if moved.1 ≥ gw then 0 else moved.1
    let hy := if moved.2 < 0 then gh - 1 else if moved.2 ≥ gh then 0 else moved.2
    let head := (hx, hy)
    if checkSelfCollision s1.snake head then endGame s1
    else
      let s2 := { s1 with snake := head :: s1.snake }
      if head.1 ≥ s2.food.1 ∧ head.1 < s2.food.1 + 3 ∧
         head.2 ≥ s2.food.2 ∧ head.2 < s2.food.2 + 3 then
        let s3 := { s2 with score := s2.score + 1 }
        if s3.score ≥ MAX_SCORE then endGame s3
        else { s3 with food := nf }
      else { s2 with snake := s2.snake.dropLast }

/-- The module's initial state: `gameRunning = false`, no neutral point,
empty history, `snake = [{x:15, y:15}]`, headings `right`, score 0.  The
source leaves `food` uninitialized (`{} as any`) until the first
`placeFood`; `(0, 0)` stands in for that placeholder. -/
def initialSnakeState : SnakeState :=
  { gameRunning := false, neutralChinPosition := none, poseHistory := [],
    snake := [(15, 15)], food := (0, 0), direction := Direction.right,
    newDirection := Direction.right, score := 0 }

/-- An external event acting on the Snake module state: a processed
video frame, a 150 ms game tick, or a press of the start button. -/
inductive SnakeEvent where
  | frame (now : Int) (cx cy : ℚ)
  | tick (gw gh : Int) (nf : Int × Int)
  | start (nf : Int × Int)

/-- The effect of one event on the module state. -/
def stepEvent (s : SnakeState) : SnakeEvent → SnakeState
  | SnakeEvent.frame now cx cy => processLandmarks s now cx cy
  | SnakeEvent.tick gw gh nf => update gw gh nf s
  | SnakeEvent.start nf => startGame nf s

/-- The module state after a sequence of events from page load. -/
def run (es : List SnakeEvent) : SnakeState :=
  es.foldl stepEvent initialSnakeState

end Snake

namespace Breakout

/-- `SMOOTHING_DURATION = 200` in the Breakout source. -/
def SMOOTHING_DURATION : Int := 200

/-- `const paddleWidth = 120`. -/
def paddleWidth : ℚ := 120

/-- `const horizontalThreshold = 0.02` in the Breakout `processLandmarks`. -/
def horizontalThreshold : ℚ := 2 / 100

/-- The classification `let userDirection: 'left' | 'right' | 'none'` of
the Breakout `processLandmarks`. -/
inductive UserDirection where
  | left
  | right
  | none
deriving DecidableEq

/-- Lines 145-151: classify the horizontal deviation from neutral using
the dead-zone threshold (the video is mirrored, so a positive deviation
of the chin means the user moved their head left on screen). -/
def classifyUserDirection (hDiff : ℚ) : UserDirection :=
  if hDiff > horizontalThreshold then UserDirection.left
  else if hDiff < -horizontalThreshold then UserDirection.right
  else UserDirection.none

/-- One brick of the grid (`type Brick`). -/
structure Brick where
  x : ℚ
  y : ℚ
  status : Nat
deriving DecidableEq

/-- `initializeBricks` (lines 176-184): 7 columns of 5 bricks, all with
`status = 1` at position (0, 0). -/
def initializeBricks : List (List Brick) :=
  List.replicate 7 (List.replicate 5 (Brick.mk 0 0 1))

/-- The Breakout module's mutable state relevant to the pipeline and to
`resetGame`. -/
structure BreakoutState where
  gameRunning : Bool
  neutralChinPosition : Option (ℚ × ℚ)
  poseHistory : List HeadPose
  paddleX : ℚ
  ballX : ℚ
  ballY : ℚ
  ballDX : ℚ
  ballDY : ℚ
  score : Nat
  lives : Nat
  bricks : List (List Brick)
deriving DecidableEq

/-- The target-selection logic of the Breakout `processLandmarks`
(lines 138-166): aim-assist when the game is running, the ball is
descending (`ballDY > 0`) and a neutral point exists — snap to the ball
when the user's classified direction matches the direction the ball is
moving, direct control otherwise — and direct control in every other
case. -/
def computeTargetPaddleX (canvasWidth : ℚ) (gameRunning : Bool)
    (ballDY ballDX ballX : ℚ) (neutral : Option (ℚ × ℚ)) (avgX : ℚ) : ℚ :=
  match neutral with
  | some n =>
    if gameRunning = true ∧ 0 < ballDY then
      let hDiff := avgX - n.1
      let userDirection := classifyUserDirection hDiff
      let requiredDirection := if 0 < ballDX then UserDirection.right
                               else UserDirection.left
      if userDirection = requiredDirection then ballX - paddleWidth / 2
      else (1 - avgX) * canvasWidth - paddleWidth / 2
    else (1 - avgX) * canvasWidth - paddleWidth / 2
  | none => (1 - avgX) * canvasWidth - paddleWidth / 2

/-- Line 169: `paddleX += (targetPaddleX - paddleX) * 0.2`. -/
def applyEasing (paddleX target : ℚ) : ℚ :=
  paddleX + (target - paddleX) * (2 / 10)

/-- Line 172: `paddleX = Math.max(0, Math.min(gameCanvas.width - paddleWidth, paddleX))`. -/
def clampPaddle (canvasWidth x : ℚ) : ℚ :=
  max 0 (min (canvasWidth - paddleWidth) x)

/-- The Breakout `processLandmarks` (lines 118-173) for a frame whose
chin landmark is `(cx, cy)` observed at time `now`: neutral latch,
history append+prune, early return on an empty window, otherwise target
selection, easing and clamping of the paddle position. -/
def processLandmarks (canvasWidth : ℚ) (s : BreakoutState) (now : Int)
    (cx cy : ℚ) : BreakoutState :=
  let s1 := { s with
    neutralChinPosition := maybeCalibrate s.gameRunning s.neutralChinPosition cx cy }
  let hist := appendAndPrune s1.poseHistory now SMOOTHING_DURATION cx cy
  let s2 := { s1 with poseHistory := hist }
  if hist = [] then s2
  else
    let avgX := averageX hist
    let target := computeTargetPaddleX canvasWidth s2.gameRunning s2.ballDY
      s2.ballDX s2.ballX s2.neutralChinPosition avgX
    { s2 with paddleX := clampPaddle canvasWidth (applyEasing s2.paddleX target) }

/-- `resetGame` (lines 186-200): resets score, lives, ball, paddle,
bricks and the neutral point.  Note the source never touches
`poseHistory` here.  `cw`/`ch` are `gameCanvas.width`/`gameCanvas.height`. -/
def resetGame (cw ch : ℚ) (s : BreakoutState) : BreakoutState :=
  { s with score := 0, lives := 3, ballX := cw / 2, ballY := ch - 30,
           ballDX := 4, ballDY := -4, paddleX := (cw - paddleWidth) / 2,
           neutralChinPosition := none, bricks := initializeBricks }

end Breakout

/-- Timestamp ordering on pose samples. -/
def tsLE (p q : HeadPose) : Prop := p.timestamp ≤ q.timestamp

/-- The pose histories reachable by the pipeline: starting from the
empty history at page load, each processed frame performs one
`appendAndPrune` at a time `now` no earlier than the previous frame's
time (`Date.now()` is non-decreasing).  `HistReach W h t` says `h` is a
reachable history whose last processed frame was at time `t`. -/
inductive HistReach (W : Int) : List HeadPose → Int → Prop
  | init (t : Int) : HistReach W [] t
  | frame {h : List HeadPose} {t : Int} (now : Int) (cx cy : ℚ)
      (hle : t ≤ now) (prev : HistReach W h t) :
      HistReach W (appendAndPrune h now W cx cy) now

section Theorems

/-- `List.dropWhile` of a list ending in an element the predicate
rejects is never empty. -/
lemma dropWhile_append_singleton_ne_nil (p : HeadPose → Bool) (s : HeadPose)
    (l : List HeadPose) (hp : p s = false) :
    (l ++ [s]).dropWhile p ≠ [] := by
  induction l with
  | nil => simp [List.dropWhile, hp]
  | cons a l ih =>
    by_cases h : p a
    · simpa [List.dropWhile, h] using ih
    · simp [List.dropWhile, h]

/-- The sample appended at time `now` is never evicted by its own prune
(the window is nonnegative in both variants), so the pruned history is
nonempty. -/
lemma appendAndPrune_ne_nil (h : List HeadPose) (now W : Int) (cx cy : ℚ)
    (hW : 0 ≤ W) : appendAndPrune h now W cx cy ≠ [] := by
  apply dropWhile_append_singleton_ne_nil
  simp only [decide_eq_false_iff_not, not_lt]
  omega

/-- The Snake `processLandmarks` stores exactly the appended-and-pruned
history, whichever branch it takes afterwards. -/
lemma Snake.processLandmarks_poseHistory (s : SnakeState) (now : Int) (cx cy : ℚ) :
    (processLandmarks s now cx cy).poseHistory
      = appendAndPrune s.poseHistory now SMOOTHING_DURATION cx cy := by
  unfold processLandmarks
  dsimp only
  split
  · rfl
  · split <;> rfl

/-- The Breakout `processLandmarks` stores exactly the
appended-and-pruned history. -/
lemma Breakout.processLandmarks_history (cw : ℚ) (s : BreakoutState)
    (now : Int) (cx cy : ℚ) :
    (processLandmarks cw s now cx cy).poseHistory
      = appendAndPrune s.poseHistory now SMOOTHING_DURATION cx cy := by
  unfold processLandmarks
  dsimp only
  split <;> rfl

/-- The Snake `processLandmarks` changes the neutral point only through
the latch. -/
lemma Snake.processLandmarks_neutral (s : SnakeState) (now : Int) (cx cy : ℚ) :
    (processLandmarks s now cx cy).neutralChinPosition
      = maybeCalibrate s.gameRunning s.neutralChinPosition cx cy := by
  unfold processLandmarks
  dsimp only
  split
  · rfl
  · split <;> rfl

/-- The Breakout `processLandmarks` changes the neutral point only
through the latch. -/
lemma Breakout.processLandmarks_neutralPoint (cw : ℚ) (s : BreakoutState)
    (now : Int) (cx cy : ℚ) :
    (processLandmarks cw s now cx cy).neutralChinPosition
      = maybeCalibrate s.gameRunning s.neutralChinPosition cx cy := by
  unfold processLandmarks
  dsimp only
  split <;> rfl

/-- The Snake `processLandmarks` never touches the committed heading. -/
lemma Snake.processLandmarks_direction (s : SnakeState) (now : Int) (cx cy : ℚ) :
    (processLandmarks s now cx cy).direction = s.direction := by
  unfold processLandmarks
  dsimp only
  split
  · rfl
  · split <;> rfl

/-- C8: the exponential easing update `paddleX += (target - paddleX) * 0.2`
starting at position 100 with fixed target 200 gives exactly 120 after
one tick and exactly 136 after the second. -/
theorem C8_easing_exact :
    Breakout.applyEasing 100 200 = 120 ∧
    Breakout.applyEasing (Breakout.applyEasing 100 200) 200 = 136 := by
  norm_num [Breakout.applyEasing]

/-- C10: each processed frame appends a sample stamped `now` and evicts
only samples with timestamp below `now - SMOOTHING_DURATION`, so with
the positive windows of both variants the stored history after any
frame is the nonempty pruned list — the empty-history early-return
branch of `processLandmarks` is unreachable on any append path. -/
theorem C10_empty_history_branch_unreachable (h : List HeadPose) (now : Int)
    (cx cy : ℚ) (s : Snake.SnakeState) (bs : Breakout.BreakoutState) (cw : ℚ) :
    appendAndPrune h now Breakout.SMOOTHING_DURATION cx cy ≠ [] ∧
    appendAndPrune h now Snake.SMOOTHING_DURATION cx cy ≠ [] ∧
    (Snake.processLandmarks s now cx cy).poseHistory ≠ [] ∧
    (Breakout.processLandmarks cw bs now cx cy).poseHistory ≠ [] := by
  refine ⟨appendAndPrune_ne_nil _ _ _ _ _ (by norm_num [Breakout.SMOOTHING_DURATION]),
    appendAndPrune_ne_nil _ _ _ _ _ (by norm_num [Snake.SMOOTHING_DURATION]), ?_, ?_⟩
  · rw [Snake.processLandmarks_poseHistory]
    exact appendAndPrune_ne_nil _ _ _ _ _ (by norm_num [Snake.SMOOTHING_DURATION])
  · rw [Breakout.processLandmarks_history]
    exact appendAndPrune_ne_nil _ _ _ _ _ (by norm_num [Breakout.SMOOTHING_DURATION])

/-- C3: in both variants the neutral point is set to the incoming
sample's coordinates exactly when the session is active and no neutral
point is currently latched; otherwise it is left unchanged. -/
theorem C3_neutral_one_shot_latch (s : Snake.SnakeState)
    (bs : Breakout.BreakoutState) (cw : ℚ) (now : Int) (cx cy : ℚ) :
    ((Snake.processLandmarks s now cx cy).neutralChinPosition
      = if s.gameRunning = true ∧ s.neutralChinPosition = none
        then some (cx, cy) else s.neutralChinPosition) ∧
    ((Breakout.processLandmarks cw bs now cx cy).neutralChinPosition
      = if bs.gameRunning = true ∧ bs.neutralChinPosition = none
        then some (cx, cy) else bs.neutralChinPosition) := by
  rw [Snake.processLandmarks_neutral, Breakout.processLandmarks_neutralPoint]
  exact ⟨rfl, rfl⟩

/-- When the latch leaves no neutral point, the Snake `processLandmarks`
returns before the direction logic, so the pending heading is held. -/
lemma Snake.processLandmarks_newDirection_of_none (s : SnakeState) (now : Int)
    (cx cy : ℚ)
    (h : maybeCalibrate s.gameRunning s.neutralChinPosition cx cy = none) :
    (processLandmarks s now cx cy).newDirection = s.newDirection := by
  obtain ⟨g, neu, hist, sn, fd, dir, nd, sc⟩ := s
  dsimp only at h ⊢
  unfold processLandmarks
  dsimp only
  rw [h]
  split <;> rfl

/-- C5: in the continuous variant, while the session is running, the
ball is descending, a neutral point exists and the ball is moving right
(`ballDX > 0`, required direction `right`), a player classified `right`
gets the snap target `ballX - paddleWidth / 2`, and every other
classification gets the direct-control target
`(1 - avgX) * canvasWidth - paddleWidth / 2`. -/
theorem C5_aim_assist_snap (cw ballDY ballDX ballX avgX nx ny : ℚ)
    (hdy : 0 < ballDY) (hdx : 0 < ballDX) :
    (Breakout.classifyUserDirection (avgX - nx) = Breakout.UserDirection.right →
      Breakout.computeTargetPaddleX cw true ballDY ballDX ballX (some (nx, ny)) avgX
        = ballX - Breakout.paddleWidth / 2) ∧
    (Breakout.classifyUserDirection (avgX - nx) ≠ Breakout.UserDirection.right →
      Breakout.computeTargetPaddleX cw true ballDY ballDX ballX (some (nx, ny)) avgX
        = (1 - avgX) * cw - Breakout.paddleWidth / 2) := by
  constructor <;> intro hcls <;>
    simp [Breakout.computeTargetPaddleX, hdy, hdx, hcls]

/-- Witness for C5 at concrete inputs: with neutral `(1/2, 1/2)` and
smoothed `avgX = 2/5` the deviation `-1/10` classifies as `right` and
the target snaps to the ball; with `avgX = 1/2` the deviation is inside
the dead zone and the direct-control formula applies. -/
theorem C5_aim_assist_snap_witness :
    Breakout.computeTargetPaddleX 480 true 4 4 100 (some (1/2, 1/2)) (2/5)
      = 100 - Breakout.paddleWidth / 2 ∧
    Breakout.computeTargetPaddleX 480 true 4 4 100 (some (1/2, 1/2)) (1/2)
      = (1 - 1/2) * 480 - Breakout.paddleWidth / 2 :=
  ⟨(C5_aim_assist_snap 480 4 4 100 (2/5) (1/2) (1/2) (by norm_num) (by norm_num)).1
      (by norm_num [Breakout.classifyUserDirection, Breakout.horizontalThreshold]),
   (C5_aim_assist_snap 480 4 4 100 (1/2) (1/2) (1/2) (by norm_num) (by norm_num)).2
      (by intro h
          rw [show Breakout.classifyUserDirection (1/2 - 1/2)
              = Breakout.UserDirection.none by
            norm_num [Breakout.classifyUserDirection, Breakout.horizontalThreshold]] at h
          exact Breakout.UserDirection.noConfusion h)⟩

/-- Appending to an empty history yields exactly the new sample. -/
lemma appendAndPrune_nil (now W : Int) (cx cy : ℚ) (hW : 0 ≤ W) :
    appendAndPrune [] now W cx cy = [HeadPose.mk now cx cy] := by
  simp only [appendAndPrune, List.nil_append, List.dropWhile]
  rw [decide_eq_false (by omega : ¬ now < now - W)]

/-- When the state already holds a neutral point, the Snake
`processLandmarks` runs the direction-selection chain on the smoothed
deviations from it. -/
lemma Snake.processLandmarks_newDirection_of_some (g : Bool) (neu : ℚ × ℚ)
    (hist : List HeadPose) (sn : List (Int × Int)) (fd : Int × Int)
    (dir nd : Direction) (sc : Nat) (now : Int) (cx cy : ℚ) :
    (processLandmarks ⟨g, some neu, hist, sn, fd, dir, nd, sc⟩ now cx cy).newDirection
      = resolveDirection dir nd
          (averageX (appendAndPrune hist now SMOOTHING_DURATION cx cy) - neu.1)
          (averageY (appendAndPrune hist now SMOOTHING_DURATION cx cy) - neu.2) := by
  have hcal : maybeCalibrate g (some neu) cx cy = some neu := by
    simp [maybeCalibrate]
  unfold processLandmarks
  dsimp only
  rw [hcal]
  rw [if_neg (appendAndPrune_ne_nil hist now SMOOTHING_DURATION cx cy
    (by norm_num [SMOOTHING_DURATION]))]

/-- C7: with neutral `(1/2, 1/2)` and a window holding only the sample
`(t, 0.52, 0.5)`, the horizontal deviation `0.02` is below the Snake
threshold `0.03` and the vertical deviation `0` is inside the vertical
dead zone, so `processLandmarks` changes neither the pending nor the
committed heading. -/
theorem C7_dead_zone_honored (g : Bool) (t : Int) (sn : List (Int × Int))
    (fd : Int × Int) (dir nd : Snake.Direction) (sc : Nat) :
    (Snake.processLandmarks ⟨g, some (1/2, 1/2), [], sn, fd, dir, nd, sc⟩
        t (52/100) (1/2)).newDirection = nd ∧
    (Snake.processLandmarks ⟨g, some (1/2, 1/2), [], sn, fd, dir, nd, sc⟩
        t (52/100) (1/2)).direction = dir := by
  refine ⟨?_, Snake.processLandmarks_direction _ _ _ _⟩
  rw [Snake.processLandmarks_newDirection_of_some,
    appendAndPrune_nil t Snake.SMOOTHING_DURATION (52/100) (1/2)
      (by norm_num [Snake.SMOOTHING_DURATION])]
  norm_num [averageX, averageY, Snake.resolveDirection,
    Snake.horizontalThreshold, Snake.verticalThreshold]

/-- C9: invoking the resolver while no neutral point exists raises no
error: the continuous variant falls back to the direct-control target,
and the discrete variant (where the latch also finds the session
inactive, so no neutral is created) holds both the pending and the
committed heading. -/
theorem C9_resolver_without_neutral (cw ballDY ballDX ballX avgX : ℚ) (g : Bool)
    (s : Snake.SnakeState) (now : Int) (cx cy : ℚ)
    (hn : s.neutralChinPosition = none) (hg : s.gameRunning = false) :
    Breakout.computeTargetPaddleX cw g ballDY ballDX ballX none avgX
      = (1 - avgX) * cw - Breakout.paddleWidth / 2 ∧
    (Snake.processLandmarks s now cx cy).direction = s.direction ∧
    (Snake.processLandmarks s now cx cy).newDirection = s.newDirection := by
  refine ⟨rfl, Snake.processLandmarks_direction _ _ _ _, ?_⟩
  apply Snake.processLandmarks_newDirection_of_none
  simp [maybeCalibrate, hn, hg]

/-- Witness for C9 at the initial Snake state (idle session, no neutral
point) and concrete continuous-variant inputs. -/
theorem C9_resolver_without_neutral_witness :
    Breakout.computeTargetPaddleX 480 true 4 4 100 none (1/2)
      = (1 - 1/2) * 480 - Breakout.paddleWidth / 2 ∧
    (Snake.processLandmarks Snake.initialSnakeState 0 (1/2) (1/2)).direction
      = Snake.initialSnakeState.direction ∧
    (Snake.processLandmarks Snake.initialSnakeState 0 (1/2) (1/2)).newDirection
      = Snake.initialSnakeState.newDirection :=
  C9_resolver_without_neutral 480 4 4 100 (1/2) true Snake.initialSnakeState
    0 (1/2) (1/2) rfl rfl

/-- C4 counterexample: `resetGame` in both variants leaves a nonempty
`poseHistory` untouched (only the neutral point is cleared), refuting
the claim that a session (re)start empties the PoseHistory. -/
theorem C4_counterexample :
    (Snake.resetGame (3, 3)
      (Snake.SnakeState.mk false none [HeadPose.mk 0 0 0] [(15, 15)] (0, 0)
        Snake.Direction.right Snake.Direction.right 0)).poseHistory ≠ [] ∧
    (Breakout.resetGame 480 320
      (Breakout.BreakoutState.mk false none [HeadPose.mk 0 0 0] 180 240 290
        4 (-4) 0 3 Breakout.initializeBricks)).poseHistory ≠ [] := by
  constructor <;> simp [Snake.resetGame, Breakout.resetGame]

/-- C4 (amended): when a play session (re)starts, `resetGame` in both
variants clears the NeutralPosition to absent but leaves the
PoseHistory exactly as it was; stale samples are removed only by the
sliding-window prune of subsequent frames. -/
theorem C4_reset_clears_neutral_keeps_history (s : Snake.SnakeState)
    (nf : Int × Int) (bs : Breakout.BreakoutState) (cw ch : ℚ) :
    (Snake.resetGame nf s).neutralChinPosition = none ∧
    (Snake.resetGame nf s).poseHistory = s.poseHistory ∧
    (Breakout.resetGame cw ch bs).neutralChinPosition = none ∧
    (Breakout.resetGame cw ch bs).poseHistory = bs.poseHistory :=
  ⟨rfl, rfl, rfl, rfl⟩

/-- C6 counterexample: a detector result processed while the session is
inactive (`gameRunning = false`) still appends its sample to the
PoseHistory, refuting the claim that stopping a session stops further
appends. -/
theorem C6_counterexample :
    (Breakout.processLandmarks 480
      (Breakout.BreakoutState.mk false none [] 180 240 290 4 (-4) 0 3
        Breakout.initializeBricks) 0 0 (1/2)).poseHistory ≠ [] := by
  rw [Breakout.processLandmarks_history]
  exact appendAndPrune_ne_nil _ _ _ _ _ (by norm_num [Breakout.SMOOTHING_DURATION])

/-- C6 (amended): stopping a session does not stop sample appends or
resolver runs — both variants keep appending and pruning on every
frame; only the neutral-point latch and the aim-assist override are
gated by the session-active flag, so an inactive continuous-variant
frame always computes the direct-control target. -/
theorem C6_inactive_session_still_processes (cw : ℚ)
    (bs : Breakout.BreakoutState) (s : Snake.SnakeState) (now : Int)
    (cx cy : ℚ) (hb : bs.gameRunning = false) :
    (Breakout.processLandmarks cw bs now cx cy).poseHistory
      = appendAndPrune bs.poseHistory now Breakout.SMOOTHING_DURATION cx cy ∧
    (Breakout.processLandmarks cw bs now cx cy).neutralChinPosition
      = bs.neutralChinPosition ∧
    (∀ ballDY ballDX ballX neutral avgX,
      Breakout.computeTargetPaddleX cw false ballDY ballDX ballX neutral avgX
        = (1 - avgX) * cw - Breakout.paddleWidth / 2) ∧
    (Snake.processLandmarks s now cx cy).poseHistory
      = appendAndPrune s.poseHistory now Snake.SMOOTHING_DURATION cx cy := by
  refine ⟨Breakout.processLandmarks_history _ _ _ _ _, ?_, ?_,
    Snake.processLandmarks_poseHistory _ _ _ _⟩
  · rw [Breakout.processLandmarks_neutralPoint]
    simp [maybeCalibrate, hb]
  · intro ballDY ballDX ballX neutral avgX
    cases neutral <;> simp [Breakout.computeTargetPaddleX]

/-- Witness for C6 (amended) at a concrete inactive Breakout state, a
concrete Snake state and concrete resolver inputs. -/
theorem C6_inactive_session_witness :
    (Breakout.processLandmarks 480
      (Breakout.BreakoutState.mk false none [] 180 240 290 4 (-4) 0 3
        Breakout.initializeBricks) 0 0 (1/2)).poseHistory
      = appendAndPrune [] 0 Breakout.SMOOTHING_DURATION 0 (1/2) ∧
    (Breakout.processLandmarks 480
      (Breakout.BreakoutState.mk false none [] 180 240 290 4 (-4) 0 3
        Breakout.initializeBricks) 0 0 (1/2)).neutralChinPosition = none ∧
    Breakout.computeTargetPaddleX 480 false 4 4 100 none (1/2)
      = (1 - 1/2) * 480 - Breakout.paddleWidth / 2 ∧
    (Snake.processLandmarks Snake.initialSnakeState 0 0 (1/2)).poseHistory
      = appendAndPrune [] 0 Snake.SMOOTHING_DURATION 0 (1/2) := by
  have h := C6_inactive_session_still_processes 480
    (Breakout.BreakoutState.mk false none [] 180 240 290 4 (-4) 0 3
      Breakout.initializeBricks) Snake.initialSnakeState 0 0 (1/2) rfl
  exact ⟨h.1, h.2.1, h.2.2.1 4 4 100 none (1/2), h.2.2.2⟩

/-- Over a timestamp-sorted history, dropping the prefix below the
cutoff leaves only samples at or above the cutoff. -/
lemma sorted_dropWhile_cutoff (c : Int) :
    ∀ l : List HeadPose, List.Pairwise tsLE l →
      ∀ p ∈ l.dropWhile (fun q => decide (q.timestamp < c)), c ≤ p.timestamp := by
  intro l
  induction l with
  | nil => intro _ p hp; simp [List.dropWhile] at hp
  | cons a l ih =>
    intro hpw p hp
    rw [List.pairwise_cons] at hpw
    rw [List.dropWhile_cons] at hp
    by_cases ha : a.timestamp < c
    · rw [if_pos (by simpa using ha)] at hp
      exact ih hpw.2 p hp
    · rw [if_neg (by simpa using ha)] at hp
      rcases List.mem_cons.mp hp with h1 | h1
      · subst h1; omega
      · exact le_trans (not_lt.mp ha) (hpw.1 p h1)

/-- One `appendAndPrune` at a time `now` bounding the current history
keeps the history timestamp-sorted, bounded by `now`, and — the window
invariant — free of samples older than `now - W`. -/
lemma appendAndPrune_invariant (h : List HeadPose) (now W : Int) (cx cy : ℚ)
    (hs : List.Pairwise tsLE h) (hb : ∀ p ∈ h, p.timestamp ≤ now) :
    List.Pairwise tsLE (appendAndPrune h now W cx cy) ∧
    (∀ p ∈ appendAndPrune h now W cx cy, p.timestamp ≤ now) ∧
    (∀ p ∈ appendAndPrune h now W cx cy, now - W ≤ p.timestamp) := by
  have hs2 : List.Pairwise tsLE (h ++ [HeadPose.mk now cx cy]) := by
    rw [List.pairwise_append]
    refine ⟨hs, List.pairwise_singleton _ _, ?_⟩
    intro a ha b hmem
    rw [List.mem_singleton] at hmem
    subst hmem
    exact hb a ha
  refine ⟨List.Pairwise.sublist (List.dropWhile_sublist _) hs2, ?_, ?_⟩
  · intro p hp
    have hmem : p ∈ h ++ [HeadPose.mk now cx cy] :=
      (List.dropWhile_sublist _).subset hp
    rcases List.mem_append.mp hmem with h1 | h1
    · exact hb p h1
    · rw [List.mem_singleton] at h1
      subst h1
      exact le_refl _
  · exact fun p hp => sorted_dropWhile_cutoff (now - W) _ hs2 p hp

/-- Every reachable history is timestamp-sorted and bounded by the time
of its last frame. -/
lemma histReach_sorted_bounded {W : Int} {h : List HeadPose} {t : Int}
    (hr : HistReach W h t) :
    List.Pairwise tsLE h ∧ ∀ p ∈ h, p.timestamp ≤ t := by
  induction hr with
  | init t => simp
  | frame now cx cy hle prev ih =>
    have hinv := appendAndPrune_invariant _ now W cx cy ih.1
      (fun p hp => le_trans (ih.2 p hp) hle)
    exact ⟨hinv.1, hinv.2.1⟩

/-- C1: along every sequence of appended samples (timestamps
non-decreasing, as `Date.now()` delivers them), after any append
followed by the prune with window `W` at the current time `now`, every
retained sample of the PoseHistory has `timestamp ≥ now - W`. -/
theorem C1_retained_samples_within_window (W : Int) {h : List HeadPose}
    {t : Int} (hr : HistReach W h t) (now : Int) (hle : t ≤ now) (cx cy : ℚ) :
    ∀ p ∈ appendAndPrune h now W cx cy, now - W ≤ p.timestamp := by
  obtain ⟨hs, hb⟩ := histReach_sorted_bounded hr
  exact (appendAndPrune_invariant h now W cx cy hs
    (fun p hp => le_trans (hb p hp) hle)).2.2

/-- Witness for C1: the first frame of a 200 ms-window session, at time
0 with chin (0, 0), retains its own sample, which is within the window. -/
theorem C1_retained_samples_witness :
    (0 : Int) - 200 ≤ (HeadPose.mk 0 0 0).timestamp :=
  C1_retained_samples_within_window 200 (HistReach.init 0) 0 le_rfl 0 0
    (HeadPose.mk 0 0 0)
    (by rw [appendAndPrune_nil 0 200 0 0 (by norm_num)]
        exact List.mem_singleton.mpr rfl)

/-- No heading equals its own 180-degree reverse. -/
lemma Direction.ne_reverse_self (d : Snake.Direction) : d ≠ d.reverse := by
  cases d <;> decide

/-- The Snake direction-selection chain never latches the reverse of
the committed heading: each branch is guarded by
`direction !== <reverse of the candidate>`. -/
lemma Snake.resolveDirection_ne_reverse (dir nd : Direction) (hD vD : ℚ)
    (hinv : nd ≠ dir.reverse) :
    resolveDirection dir nd hD vD ≠ dir.reverse := by
  unfold resolveDirection
  split_ifs with h1 h2 h3 h4
  · cases dir <;> simp_all [Direction.reverse]
  · cases dir <;> simp_all [Direction.reverse]
  · cases dir <;> simp_all [Direction.reverse]
  · cases dir <;> simp_all [Direction.reverse]
  · exact hinv

/-- The Snake `processLandmarks` either holds the pending heading or
replaces it through `resolveDirection` on the committed heading. -/
lemma Snake.processLandmarks_newDirection_cases (s : SnakeState) (now : Int)
    (cx cy : ℚ) :
    (processLandmarks s now cx cy).newDirection = s.newDirection ∨
    ∃ hD vD, (processLandmarks s now cx cy).newDirection
      = resolveDirection s.direction s.newDirection hD vD := by
  unfold processLandmarks
  dsimp only
  split
  · exact Or.inl rfl
  · split
    · exact Or.inl rfl
    · exact Or.inr ⟨_, _, rfl⟩

/-- A game tick (`update`) commits the pending heading and leaves it
pending. -/
lemma Snake.update_dirs (gw gh : Int) (nf : Int × Int) (s : SnakeState) :
    (update gw gh nf s).direction = s.newDirection ∧
    (update gw gh nf s).newDirection = s.newDirection := by
  unfold update endGame
  dsimp only
  split
  · exact ⟨rfl, rfl⟩
  · split_ifs <;> exact ⟨rfl, rfl⟩

/-- Every event preserves the no-reversal invariant: the pending
heading is never the reverse of the committed heading. -/
lemma Snake.stepEvent_preserves_noReversal (s : SnakeState) (e : SnakeEvent)
    (hinv : s.newDirection ≠ s.direction.reverse) :
    (stepEvent s e).newDirection ≠ (stepEvent s e).direction.reverse := by
  cases e with
  | frame now cx cy =>
    show (processLandmarks s now cx cy).newDirection
      ≠ (processLandmarks s now cx cy).direction.reverse
    rw [processLandmarks_direction]
    rcases processLandmarks_newDirection_cases s now cx cy with h | ⟨hD, vD, h⟩
    · rw [h]; exact hinv
    · rw [h]; exact resolveDirection_ne_reverse _ _ _ _ hinv
  | tick gw gh nf =>
    show (update gw gh nf s).newDirection ≠ (update gw gh nf s).direction.reverse
    rw [(update_dirs gw gh nf s).1, (update_dirs gw gh nf s).2]
    exact Direction.ne_reverse_self _
  | start nf =>
    show (startGame nf s).newDirection ≠ (startGame nf s).direction.reverse
    unfold startGame
    split
    · exact hinv
    · exact Direction.ne_reverse_self Direction.right

/-- The no-reversal invariant holds in every state reachable from page
load. -/
lemma Snake.run_noReversal (es : List SnakeEvent) :
    (run es).newDirection ≠ (run es).direction.reverse := by
  suffices h : ∀ (es : List SnakeEvent) (s : SnakeState),
      s.newDirection ≠ s.direction.reverse →
      (es.foldl stepEvent s).newDirection
        ≠ (es.foldl stepEvent s).direction.reverse by
    exact h es initialSnakeState (by decide)
  intro es
  induction es with
  | nil => exact fun s hs => hs
  | cons e es ih => exact fun s hs => ih _ (stepEvent_preserves_noReversal s e hs)

/-- C2: in every Snake state reachable by any interleaving of processed
frames, game ticks and start presses, the pending heading is never the
180-degree reverse of the committed heading — however large the head
deviation — and consequently the heading a tick commits is never the
reverse of the previously committed heading. -/
theorem C2_no_reversal_accepted (es : List Snake.SnakeEvent) (gw gh : Int)
    (nf : Int × Int) :
    (Snake.run es).newDirection ≠ (Snake.run es).direction.reverse ∧
    (Snake.update gw gh nf (Snake.run es)).direction
      ≠ (Snake.run es).direction.reverse := by
  refine ⟨Snake.run_noReversal es, ?_⟩
  rw [(Snake.update_dirs gw gh nf (Snake.run es)).1]
  exact Snake.run_noReversal es

end Theorems
